import Mathlib

/-!
Verification of the retrieval-augmented question answering pipeline of this
repository: document normalization, chunking, vector-index maintenance, the
query bot, and its HTTP endpoint, shallowly embedded from
`src/rag_pipeline/bot.py`, `src/api/main.py`, `src/data/build_vector_store.py`,
`rag/load_and_embed.py`, `rag/embed_transcripts.py` and `rag/query_bot.py`.
Metadata dictionaries are embedded as association lists, Python `dict.get`
as `metaGet` with `Option.getD`, and the fallible LangChain chain invocation
as an explicit `Except`-valued collaborator argument.
-/

/-- A LangChain metadata dictionary: string keys to string values. -/
abbrev Metadata := List (String × String)

/-- Python `metadata.get(key)`: first binding of `key`, if any. -/
def metaGet (m : Metadata) (key : String) : Option String :=
  m.lookup key

/-- A LangChain `Document`: page content plus a metadata dictionary
(`langchain.schema.Document` as used throughout the sources). -/
structure Document where
  page_content : String
  metadata : Metadata
deriving DecidableEq, Repr

/-- Embeds `format_source_doc` of `src/rag_pipeline/bot.py` (lines 111-117):
title defaults to "Unknown Title", arxiv papers append the primary category
defaulting to "N/A". -/
def format_source_doc (doc : Document) : String :=
  let title := (metaGet doc.metadata "title").getD "Unknown Title"
  if metaGet doc.metadata "source_type" = some "arxiv_paper" then
    let category := (metaGet doc.metadata "primary_category").getD "N/A"
    title ++ " (" ++ category ++ ")"
  else
    title

/-- The raw dictionary returned by `chain.invoke`: the optional "result"
entry and the "source_documents" list (absent keys are `none` / `[]`). -/
structure RagResult where
  result : Option String
  source_documents : List Document
deriving DecidableEq, Repr

/-- The observable state of `QueryBot` from `src/rag_pipeline/bot.py`: its
immutable configuration snapshot and the mutable `num_predict` attribute of
the chain's LLM (`self.chain.combine_documents_chain.llm_chain.llm.num_predict`). -/
structure QueryBot where
  faissIndexPath : String
  llmNumPredict : Nat
deriving DecidableEq, Repr

/-- Embeds `QueryBot.ask` (bot.py lines 68-84): first assigns the LLM's
`num_predict` attribute, then invokes the chain; the chain invocation may
fail, and `ask` installs no handler, so the failure is returned as-is. -/
def QueryBot.ask (bot : QueryBot) (chainInvoke : Nat → String → Except String RagResult)
    (query : String) (numPredictTokens : Nat) : QueryBot × Except String RagResult :=
  let bot1 := { bot with llmNumPredict := numPredictTokens }
  (bot1, chainInvoke bot1.llmNumPredict query)

/-- Embeds `sorted(list({format_source_doc(doc) for doc in source_docs}))`
from `src/api/main.py` line 77: deduplicate the formatted strings, then sort. -/
def unique_sorted_sources (source_docs : List Document) : List String :=
  List.insertionSort (fun a b : String => a ≤ b)
    ((source_docs.map format_source_doc).dedup)

/-- Outcome of one request to the `/ask` endpoint: an `HTTPException` with
status code and detail, an uncaught exception escaping the handler, or a
normal `AskResponse` of answer text and source list. -/
inductive ApiResult where
  | httpError (statusCode : Nat) (detail : String)
  | uncaught (msg : String)
  | ok (answer : String) (sources : List String)
deriving DecidableEq, Repr

/-- Embeds `ask_question` of `src/api/main.py` (lines 52-79): 503 when the
bot is not yet set, 400 listing the valid keys when the requested length is
not in `answer_length_map`, otherwise delegate to `QueryBot.ask` and format
the result; no handler surrounds the chain invocation. -/
def ask_question (bot : Option QueryBot) (answer_length_map : List (String × Nat))
    (chainInvoke : Nat → String → Except String RagResult)
    (query : String) (lengthChoice : String) : ApiResult :=
  match bot with
  | none => ApiResult.httpError 503 "Bot is not initialized. Please wait."
  | some b =>
    match answer_length_map.lookup lengthChoice with
    | none =>
        ApiResult.httpError 400
          ("Invalid length. Choose from: "
            ++ String.intercalate ", " (answer_length_map.map Prod.fst))
    | some numTokens =>
        match (QueryBot.ask b chainInvoke query numTokens).2 with
        | Except.error e => ApiResult.uncaught e
        | Except.ok result =>
            ApiResult.ok (result.result.getD "No answer found.")
              (unique_sorted_sources result.source_documents)

/-- A concrete bot value used to instantiate the endpoint theorems. -/
def demoBot : QueryBot :=
  { faissIndexPath := "models/faiss_index", llmNumPredict := 300 }

/-- A concrete `answer_length_map` in the shape of the configured one. -/
def demoLengthMap : List (String × Nat) :=
  [("short", 150), ("medium", 300), ("long", 600)]

/-- Modelled from the spec: the Vector Index entry store. The repository
delegates this component to the external FAISS library
(`FAISS.add_documents` called from `src/data/build_vector_store.py` line 130
and `rag/embed_transcripts.py` line 82), whose implementation is not part of
the repository sources; per the spec each entry pairs one embedding with one
chunk. -/
structure VectorIndex where
  entries : List (List Int × Document)
deriving Repr

/-- Modelled from the spec: `add(chunks, embedder)` embeds every chunk's text
and appends the resulting entries to the index without deduplication. -/
def VectorIndex.add (idx : VectorIndex) (embedder : String → List Int)
    (chunks : List Document) : VectorIndex :=
  { entries := idx.entries ++ chunks.map (fun c => (embedder c.page_content, c)) }

/-- The retrieval chain held by a ready `QueryBot`: it owns the loaded index. -/
structure RetrievalChain where
  db : VectorIndex
deriving Repr

/-- Embeds `QueryBot._initialize_chain` (bot.py lines 34-46) at the index
boundary: the load attempt either yields an index or an error message, and on
error the except-branch raises `SystemExit(1)`, modelled as exit code 1. -/
def initChain (loadResult : Except String VectorIndex) : Except Nat RetrievalChain :=
  match loadResult with
  | Except.error _ => Except.error 1
  | Except.ok db => Except.ok { db := db }

/-- One row of the filtered-papers CSV as read by `rag/load_and_embed.py`;
absent fields are `none`. -/
structure CsvPaperRow where
  title : Option String
  summary : Option String
  published : Option String
  primaryCategory : Option String
deriving DecidableEq, Repr

/-- Embeds the loop body of `create_documents_from_csv`
(`rag/load_and_embed.py` lines 48-56). -/
def create_document_from_csv_row (row : CsvPaperRow) : Document :=
  { page_content := "Title: " ++ row.title.getD "" ++ "\n\nSummary: " ++ row.summary.getD "",
    metadata :=
      [("title", row.title.getD "Unknown Title"),
       ("published", row.published.getD "Unknown Date"),
       ("primary_category", row.primaryCategory.getD "N/A"),
       ("source_type", "arxiv_paper")] }

/-- Embeds `create_documents_from_csv`: one document per row. -/
def create_documents_from_csv (rows : List CsvPaperRow) : List Document :=
  rows.map create_document_from_csv_row

/-- One record of the papers Parquet file as read by
`src/data/build_vector_store.py`; absent fields are `none`. -/
structure ParquetPaperRow where
  title : Option String
  abstract : Option String
  categories : Option String
  authors : Option String
deriving DecidableEq, Repr

/-- Python `s.split(" ")[0]`: the first space-separated token. -/
def firstSpaceToken (s : String) : String :=
  s.takeWhile (fun c => c ≠ ' ')

/-- Embeds the loop body of `load_from_parquet`
(`src/data/build_vector_store.py` lines 43-51): note the absent `published`
key and the empty-string title default. -/
def load_parquet_row (row : ParquetPaperRow) : Document :=
  { page_content := "Title: " ++ row.title.getD "" ++ "\n\nAbstract: " ++ row.abstract.getD "",
    metadata :=
      [("title", row.title.getD ""),
       ("primary_category", firstSpaceToken (row.categories.getD "")),
       ("authors", row.authors.getD ""),
       ("source_type", "arxiv_paper")] }

/-- Embeds `load_from_parquet`: one document per record. -/
def load_from_parquet (rows : List ParquetPaperRow) : List Document :=
  rows.map load_parquet_row

/-- A concrete Parquet record with every optional field absent. -/
def emptyParquetRow : ParquetPaperRow :=
  { title := none, abstract := none, categories := none, authors := none }

/-- Python `str.replace("_", " ")` for the single-character pattern. -/
def underscoreToSpace (s : String) : String :=
  String.mk (s.data.map (fun c => if c = '_' then ' ' else c))

/-- Helper fold for Python `str.title()`: the flag records whether the
previous character was cased. -/
def pyTitleAux : Bool → List Char → List Char
  | _, [] => []
  | prevCased, c :: cs =>
    if c.isAlpha then
      (if prevCased then c.toLower else c.toUpper) :: pyTitleAux true cs
    else
      c :: pyTitleAux false cs

/-- Python `str.title()`: uppercase a letter after a non-letter, lowercase a
letter after a letter. -/
def pyTitle (s : String) : String :=
  String.mk (pyTitleAux false s.data)

/-- Embeds the per-file document construction of `load_from_text_files`
(`src/data/build_vector_store.py` lines 77-84) and `load_transcripts`
(`rag/embed_transcripts.py` lines 42-55): content is the full file text,
the title is the stem with underscores replaced by spaces and title-cased. -/
def load_transcript_doc (stem : String) (fileText : String) : Document :=
  { page_content := fileText,
    metadata :=
      [("title", pyTitle (underscoreToSpace stem)),
       ("source_type", "transcript")] }

/-- Embeds the transcript loaders at the file-list level: one document per
`(stem, file text)` pair. -/
def load_from_text_files (files : List (String × String)) : List Document :=
  files.map (fun f => load_transcript_doc f.1 f.2)

/-- Modelled from the spec: the Chunker (the external
`RecursiveCharacterTextSplitter` of the langchain library, configured in
`src/data/build_vector_store.py` lines 107-110 and
`rag/embed_transcripts.py` lines 67-69; its implementation is not part of
the repository sources). Per the spec it is a deterministic sliding-window
split with the configured chunk size and overlap that never exceeds the
chunk size; a window-size-or-smaller text is a single chunk. -/
def splitChars (size overlap : Nat) (cs : List Char) : List (List Char) :=
  if h1 : size ≤ overlap then [cs]
  else if h2 : cs.length ≤ size then [cs]
  else cs.take size :: splitChars size overlap (cs.drop (size - overlap))
termination_by cs.length
decreasing_by
  simp
  omega

/-- Modelled from the spec: the Chunker at the document level; an empty
document yields zero chunks rather than an error. -/
def split_text (size overlap : Nat) (content : List Char) : List (List Char) :=
  if content.isEmpty then [] else splitChars size overlap content

/-- Two adjacent chunks share an overlap window: the last `overlap`
characters of the first equal the first `overlap` characters of the second. -/
def sharesOverlap (overlap : Nat) (a b : List Char) : Prop :=
  overlap ≤ a.length ∧ a.drop (a.length - overlap) = b.take overlap

/-- Every chunk the splitter produces is at most `size` characters long. -/
theorem splitChars_length_le (size overlap : Nat) (h : overlap < size) (cs : List Char) :
    ∀ c ∈ splitChars size overlap cs, c.length ≤ size := by
  rw [splitChars]
  split_ifs with h1 h2
  · exact absurd h1 (by omega)
  · intro c hc
    simp only [List.mem_singleton] at hc
    subst hc
    exact h2
  · intro c hc
    rcases List.mem_cons.mp hc with rfl | hmem
    · rw [List.length_take]
      omega
    · exact splitChars_length_le size overlap h (cs.drop (size - overlap)) c hmem
termination_by cs.length
decreasing_by
  simp
  omega

/-- The first chunk of a split starts with the same `overlap` characters as
the text being split. -/
theorem splitChars_head_take (size overlap : Nat) (h : overlap ≤ size) (cs : List Char)
    (b : List Char) (hb : (splitChars size overlap cs).head? = some b) :
    b.take overlap = cs.take overlap := by
  rw [splitChars] at hb
  split_ifs at hb with h1 h2
  · simp only [List.head?_cons, Option.some.injEq] at hb
    rw [← hb]
  · simp only [List.head?_cons, Option.some.injEq] at hb
    rw [← hb]
  · simp only [List.head?_cons, Option.some.injEq] at hb
    rw [← hb, List.take_take, Nat.min_eq_left h]

/-- Consecutive chunks of a split share an `overlap`-character window. -/
theorem splitChars_chain (size overlap : Nat) (h : overlap < size) (cs : List Char) :
    List.Chain' (sharesOverlap overlap) (splitChars size overlap cs) := by
  rw [splitChars]
  split_ifs with h1 h2
  · exact List.chain'_singleton cs
  · exact List.chain'_singleton cs
  · refine List.chain'_cons'.mpr
      ⟨?_, splitChars_chain size overlap h (cs.drop (size - overlap))⟩
    intro b hb
    have hbt : b.take overlap = (cs.drop (size - overlap)).take overlap :=
      splitChars_head_take size overlap (Nat.le_of_lt h) (cs.drop (size - overlap)) b
        (Option.mem_def.mp hb)
    have hlen : (cs.take size).length = size := by
      rw [List.length_take]
      omega
    constructor
    · rw [hlen]
      omega
    · rw [hlen, hbt, List.drop_take]
      have hso : size - (size - overlap) = overlap := by omega
      rw [hso]
termination_by cs.length
decreasing_by
  simp
  omega

/-- C1 counterexample: with a language-model collaborator that raises, the
endpoint result is the uncaught exception, not an Answer with the fallback
text and empty sources — the exception propagates to the caller, refuting
the claim as stated. -/
theorem ask_error_propagates_cex :
    ask_question (some demoBot) demoLengthMap
        (fun _ _ => Except.error "Ollama connection refused")
        "What is consciousness?" "medium"
      = ApiResult.uncaught "Ollama connection refused" ∧
    ask_question (some demoBot) demoLengthMap
        (fun _ _ => Except.error "Ollama connection refused")
        "What is consciousness?" "medium"
      ≠ ApiResult.ok "No answer found." [] := by
  constructor
  · rfl
  · decide

/-- C1 amended: for a valid length choice, when the chain invocation returns
an empty result (no result text, no source documents) the Answer is the
fallback text "No answer found." with an empty source list; but when the
chain invocation raises, the error propagates uncaught to the caller of
`ask` — no handler exists in `ask` or the endpoint. -/
theorem ask_fallback_and_propagation (bot : QueryBot) (lm : List (String × Nat))
    (q lc : String) (n : Nat) (hn : lm.lookup lc = some n) :
    (∀ inv : Nat → String → Except String RagResult,
        inv n q = Except.ok { result := none, source_documents := [] } →
        ask_question (some bot) lm inv q lc = ApiResult.ok "No answer found." []) ∧
    (∀ (inv : Nat → String → Except String RagResult) (e : String),
        inv n q = Except.error e →
        ask_question (some bot) lm inv q lc = ApiResult.uncaught e) := by
  constructor
  · intro inv hinv
    simp [ask_question, QueryBot.ask, hn, hinv, unique_sorted_sources]
  · intro inv e hinv
    simp [ask_question, QueryBot.ask, hn, hinv]

/-- C1 witness: concrete instantiation of the amended theorem — the fallback
response when the chain returns an empty result, and propagation when the
chain raises. -/
theorem ask_fallback_and_propagation_witness :
    ask_question (some demoBot) demoLengthMap
        (fun _ _ => Except.ok { result := none, source_documents := [] })
        "What is consciousness?" "medium"
      = ApiResult.ok "No answer found." [] ∧
    ask_question (some demoBot) demoLengthMap
        (fun _ _ => Except.error "boom")
        "What is consciousness?" "medium"
      = ApiResult.uncaught "boom" :=
  ⟨(ask_fallback_and_propagation demoBot demoLengthMap "What is consciousness?"
        "medium" 300 rfl).1 _ rfl,
   (ask_fallback_and_propagation demoBot demoLengthMap "What is consciousness?"
        "medium" 300 rfl).2 _ "boom" rfl⟩

/-- C2: the endpoint's source list contains a string exactly when it is the
formatting of some retrieved chunk ("{title} ({primary_category})" for arxiv
papers, "{title}" otherwise, both computed by `format_source_doc`), has no
duplicates, and is sorted in ascending string order. -/
theorem unique_sources_spec (docs : List Document) :
    (∀ s, s ∈ unique_sorted_sources docs ↔ ∃ d ∈ docs, format_source_doc d = s) ∧
    (unique_sorted_sources docs).Nodup ∧
    List.Sorted (fun a b : String => a ≤ b) (unique_sorted_sources docs) := by
  have hperm : List.Perm (unique_sorted_sources docs) (docs.map format_source_doc).dedup :=
    List.perm_insertionSort _ _
  refine ⟨?_, ?_, ?_⟩
  · intro s
    rw [hperm.mem_iff, List.mem_dedup, List.mem_map]
  · exact hperm.nodup_iff.mpr (List.nodup_dedup _)
  · exact List.sorted_insertionSort _ _

/-- C3: adding a chunk list to the index appends one entry per chunk, so
adding the same chunk list twice grows the entry count by exactly twice the
number of chunks — nothing is merged or deduplicated. -/
theorem add_twice_doubles (idx : VectorIndex) (embedder : String → List Int)
    (chunks : List Document) :
    (idx.add embedder chunks).entries.length = idx.entries.length + chunks.length ∧
    ((idx.add embedder chunks).add embedder chunks).entries.length
      = idx.entries.length + 2 * chunks.length := by
  constructor
  · simp [VectorIndex.add]
  · simp [VectorIndex.add]
    omega

/-- C4: a request whose length choice is not a key of the configured
answer-length map gets a 400 error whose detail lists the valid keys, and
the result is the same for every language-model collaborator — the chain is
never invoked; a request arriving while the bot is unset gets a 503 error. -/
theorem invalid_length_and_uninit (bot : QueryBot) (lm : List (String × Nat))
    (q lc : String) (hmiss : lm.lookup lc = none) :
    (∀ inv : Nat → String → Except String RagResult,
        ask_question (some bot) lm inv q lc
          = ApiResult.httpError 400
              ("Invalid length. Choose from: "
                ++ String.intercalate ", " (lm.map Prod.fst))) ∧
    (∀ (inv : Nat → String → Except String RagResult) (q2 lc2 : String),
        ask_question none lm inv q2 lc2
          = ApiResult.httpError 503 "Bot is not initialized. Please wait.") := by
  constructor
  · intro inv
    simp [ask_question, hmiss]
  · intro inv q2 lc2
    rfl

/-- C4 witness: the concrete length choice "extreme" is rejected with the
enumerated valid keys and no chain call, and an unset bot yields 503. -/
theorem invalid_length_and_uninit_witness :
    ask_question (some demoBot) demoLengthMap
        (fun _ _ => Except.ok { result := some "an answer", source_documents := [] })
        "What is consciousness?" "extreme"
      = ApiResult.httpError 400
          ("Invalid length. Choose from: "
            ++ String.intercalate ", " (demoLengthMap.map Prod.fst)) ∧
    ask_question none demoLengthMap
        (fun _ _ => Except.ok { result := some "an answer", source_documents := [] })
        "What is consciousness?" "medium"
      = ApiResult.httpError 503 "Bot is not initialized. Please wait." :=
  ⟨(invalid_length_and_uninit demoBot demoLengthMap "What is consciousness?"
        "extreme" rfl).1 _,
   (invalid_length_and_uninit demoBot demoLengthMap "What is consciousness?"
        "extreme" rfl).2 _ "What is consciousness?" "medium"⟩

/-- C5 counterexample: for a Parquet paper record with all optional fields
absent, the produced document's metadata has no `published` key at all and
its `title` value is the empty string — no placeholder is substituted —
refuting the claim as stated for the Parquet normalizer. -/
theorem parquet_missing_fields_cex :
    metaGet (load_parquet_row emptyParquetRow).metadata "published" = none ∧
    metaGet (load_parquet_row emptyParquetRow).metadata "title" = some "" := by
  decide

/-- C5 amended: the CSV normalizer produces, per row, exactly one document
with content "Title: ...\n\nSummary: ..." and metadata title (placeholder
"Unknown Title" when absent), published (default "Unknown Date"),
primary_category (default "N/A") and source_type "arxiv_paper"; the Parquet
normalizer produces, per record, exactly one document with content
"Title: ...\n\nAbstract: ...", metadata title defaulting to the empty
string, primary_category the first space-separated token of the categories
field, authors, and source_type "arxiv_paper", with no published key. -/
theorem paper_normalizer_amended (r : CsvPaperRow) (p : ParquetPaperRow)
    (rows : List CsvPaperRow) (precs : List ParquetPaperRow) :
    (create_documents_from_csv rows).length = rows.length ∧
    (load_from_parquet precs).length = precs.length ∧
    (create_document_from_csv_row r).page_content
      = "Title: " ++ r.title.getD "" ++ "\n\nSummary: " ++ r.summary.getD "" ∧
    metaGet (create_document_from_csv_row r).metadata "title"
      = some (r.title.getD "Unknown Title") ∧
    metaGet (create_document_from_csv_row r).metadata "published"
      = some (r.published.getD "Unknown Date") ∧
    metaGet (create_document_from_csv_row r).metadata "primary_category"
      = some (r.primaryCategory.getD "N/A") ∧
    metaGet (create_document_from_csv_row r).metadata "source_type"
      = some "arxiv_paper" ∧
    (load_parquet_row p).page_content
      = "Title: " ++ p.title.getD "" ++ "\n\nAbstract: " ++ p.abstract.getD "" ∧
    metaGet (load_parquet_row p).metadata "title" = some (p.title.getD "") ∧
    metaGet (load_parquet_row p).metadata "published" = none ∧
    metaGet (load_parquet_row p).metadata "primary_category"
      = some (firstSpaceToken (p.categories.getD "")) ∧
    metaGet (load_parquet_row p).metadata "source_type" = some "arxiv_paper" := by
  refine ⟨?_, ?_, rfl, rfl, rfl, rfl, rfl, rfl, rfl, rfl, rfl, rfl⟩
  · simp [create_documents_from_csv]
  · simp [load_from_parquet]

/-- C6: under any configuration with overlap smaller than the chunk size,
every produced chunk is at most `size` characters long, consecutive chunks
share an `overlap`-character window, and the empty document yields zero
chunks. -/
theorem chunker_spec (size overlap : Nat) (content : List Char) (h : overlap < size) :
    (∀ c ∈ split_text size overlap content, c.length ≤ size) ∧
    List.Chain' (sharesOverlap overlap) (split_text size overlap content) ∧
    split_text size overlap [] = [] := by
  refine ⟨?_, ?_, rfl⟩
  · unfold split_text
    split_ifs with he
    · intro c hc
      simp at hc
    · exact splitChars_length_le size overlap h content
  · unfold split_text
    split_ifs with he
    · exact List.chain'_nil
    · exact splitChars_chain size overlap h content

/-- C6 witness: the chunk-size bound, the overlap-sharing chain and the
empty-document case at the concrete configuration size 5, overlap 2. -/
theorem chunker_spec_witness :
    (∀ c ∈ split_text 5 2 ['c', 'o', 'n', 's', 'c', 'i', 'o', 'u', 's'], c.length ≤ 5) ∧
    List.Chain' (sharesOverlap 2) (split_text 5 2 ['c', 'o', 'n', 's', 'c', 'i', 'o', 'u', 's']) ∧
    split_text 5 2 [] = [] :=
  chunker_spec 5 2 ['c', 'o', 'n', 's', 'c', 'i', 'o', 'u', 's'] (by decide)

/-- C7 counterexample: `ask` does not leave the bot state unchanged — it
assigns the requested token count to the LLM's `num_predict` attribute, so
after asking with 42 tokens the state differs from the prior state with 300. -/
theorem ask_mutates_state_cex :
    (QueryBot.ask demoBot
        (fun _ _ => Except.ok { result := some "an answer", source_documents := [] })
        "What is consciousness?" 42).1
      ≠ demoBot := by
  decide

/-- C7 amended: `ask` mutates exactly the LLM's `num_predict` field, setting
it to the requested token count; the configuration is untouched, and a
repeated call with the same token count observes and leaves the same state. -/
theorem ask_state_update (b : QueryBot) (inv : Nat → String → Except String RagResult)
    (q : String) (n : Nat) :
    (QueryBot.ask b inv q n).1 = { b with llmNumPredict := n } ∧
    (QueryBot.ask b inv q n).1.faissIndexPath = b.faissIndexPath ∧
    (QueryBot.ask (QueryBot.ask b inv q n).1 inv q n).1 = (QueryBot.ask b inv q n).1 :=
  ⟨rfl, rfl, rfl⟩

/-- C8: if the vector index cannot be loaded at construction time, chain
construction terminates with exit status 1, which is non-zero; a ready chain
is only ever produced from a successful load and holds exactly the loaded
index. -/
theorem init_chain_fatal (e : String) (idx : VectorIndex) (ch : RetrievalChain)
    (hok : initChain (Except.ok idx) = Except.ok ch) :
    initChain (Except.error e) = Except.error 1 ∧ (1 : Nat) ≠ 0 ∧ ch.db = idx := by
  refine ⟨rfl, by decide, ?_⟩
  simp [initChain] at hok
  rw [← hok]

/-- C8 witness: concrete failed load exits with status 1 and a concrete
successful load yields a chain holding the loaded index. -/
theorem init_chain_fatal_witness :
    initChain (Except.error "could not read index directory") = Except.error 1 ∧
    (1 : Nat) ≠ 0 ∧
    RetrievalChain.db { db := { entries := [] } } = { entries := [] } :=
  init_chain_fatal "could not read index directory" { entries := [] }
    { db := { entries := [] } } rfl

/-- C9: the transcript normalizer produces one document per source file whose
content is the full file text, whose title is the file stem with underscores
replaced by spaces and title-cased, and whose source_type is "transcript";
checked on a concrete stem. -/
theorem transcript_normalizer_spec (files : List (String × String)) (stem fileText : String) :
    (load_from_text_files files).length = files.length ∧
    (load_transcript_doc stem fileText).page_content = fileText ∧
    metaGet (load_transcript_doc stem fileText).metadata "title"
      = some (pyTitle (underscoreToSpace stem)) ∧
    metaGet (load_transcript_doc stem fileText).metadata "source_type"
      = some "transcript" ∧
    pyTitle (underscoreToSpace "sam_harris_on_consciousness")
      = "Sam Harris On Consciousness" := by
  refine ⟨?_, rfl, rfl, rfl, by decide⟩
  simp [load_from_text_files]

/-- C10: `format_source_doc` is total on every Document: an arxiv_paper
chunk formats as title and parenthesized category where the title falls back
to "Unknown Title" when the title key is absent and the category falls back
to "N/A" when the primary_category key is absent; every other chunk formats
as the title with the same "Unknown Title" fallback. -/
theorem format_source_doc_defaults (d : Document) :
    (metaGet d.metadata "source_type" = some "arxiv_paper" →
        format_source_doc d
          = (metaGet d.metadata "title").getD "Unknown Title"
              ++ " (" ++ (metaGet d.metadata "primary_category").getD "N/A" ++ ")") ∧
    (metaGet d.metadata "source_type" ≠ some "arxiv_paper" →
        format_source_doc d = (metaGet d.metadata "title").getD "Unknown Title") := by
  constructor
  · intro h1
    simp [format_source_doc, h1]
  · intro h1
    simp [format_source_doc, h1]

/-- C10 witness: the defaults on concrete documents — an arxiv paper with a
title but no category gets "(N/A)" appended, an arxiv paper with neither key
gets both fallbacks, and a document without a source type gets the title
fallback alone. -/
theorem format_source_doc_defaults_witness :
    format_source_doc
        { page_content := "x",
          metadata := [("title", "My Paper"), ("source_type", "arxiv_paper")] }
      = "My Paper (N/A)" ∧
    format_source_doc { page_content := "x", metadata := [("source_type", "arxiv_paper")] }
      = "Unknown Title (N/A)" ∧
    format_source_doc { page_content := "x", metadata := [] } = "Unknown Title" :=
  ⟨(format_source_doc_defaults
        { page_content := "x",
          metadata := [("title", "My Paper"), ("source_type", "arxiv_paper")] }).1 rfl,
   (format_source_doc_defaults
        { page_content := "x", metadata := [("source_type", "arxiv_paper")] }).1 rfl,
   (format_source_doc_defaults { page_content := "x", metadata := [] }).2 (by decide)⟩
